import Mathlib

/-!
Shallow embedding of the `nba-prizepicks-model` repository
(`src/fetch_nba_stats.py` and `src/scrape_prizepicks.py`) and proofs about it.

Modelling conventions, used throughout:
* Python values that flow through the scraped JSON / DataFrame cells are
  modelled by the inductive `PyVal`; both Python `int` and `float` are
  modelled as exact rationals (`Rat`), and `round(x, 1)` is modelled as
  round-half-to-even on the exact rational, which is CPython's documented
  behaviour on exactly representable values.
* Python dictionaries are modelled as association lists with distinct keys;
  `d.get(k)` returns the Python value `None` (`PyVal.none`) when the key is
  absent, exactly as in Python.
* A Python function that can raise an exception which the repository's code
  does not catch locally is modelled with `Except Unit`; a code path on which
  every exception is caught and converted to a default is modelled as a total
  function.
* External collaborators that are not part of this repository (the `nba_api`
  player directory and game-log endpoint, `pandas` date parsing, the
  `requests` transport and the BeautifulSoup HTML pass) are taken as
  parameters of the embedded functions; the spec lists them as external
  interfaces.
* Rational arithmetic is implemented through `mkRat`/`Rat.divInt` so that
  every definition evaluates by kernel reduction; bridge lemmas identify
  these operations with the standard field operations on `Rat`.
-/

/-- Exact rational addition, implemented reducibly. -/
def ratAdd (a b : Rat) : Rat :=
  mkRat (a.num * b.den + b.num * a.den) (a.den * b.den)

/-- Exact rational multiplication, implemented reducibly. -/
def ratMul (a b : Rat) : Rat :=
  mkRat (a.num * b.num) (a.den * b.den)

/-- Exact rational division, implemented reducibly (division by zero gives 0,
as for `Rat`). -/
def ratDiv (a b : Rat) : Rat :=
  Rat.divInt (a.num * b.den) (a.den * b.num)

/-- Exact rational negation, implemented reducibly. -/
def ratNeg (a : Rat) : Rat :=
  mkRat (-a.num) a.den

/-- Decidable strict comparison of rationals, implemented reducibly. -/
def ratLtB (a b : Rat) : Bool :=
  decide (a.num * (b.den : Int) < b.num * (a.den : Int))

/-- Floor of a rational, implemented reducibly. -/
def ratFloor (q : Rat) : Int :=
  Int.fdiv q.num (q.den : Int)

theorem ratAdd_eq (a b : Rat) : ratAdd a b = a + b := by
  have hda : ((a.den : Rat)) ≠ 0 := by exact_mod_cast a.den_nz
  have hdb : ((b.den : Rat)) ≠ 0 := by exact_mod_cast b.den_nz
  rw [ratAdd, Rat.mkRat_eq_div]
  push_cast
  conv_rhs => rw [← Rat.num_div_den a, ← Rat.num_div_den b]
  field_simp

theorem ratMul_eq (a b : Rat) : ratMul a b = a * b := by
  have hda : ((a.den : Rat)) ≠ 0 := by exact_mod_cast a.den_nz
  have hdb : ((b.den : Rat)) ≠ 0 := by exact_mod_cast b.den_nz
  rw [ratMul, Rat.mkRat_eq_div]
  push_cast
  conv_rhs => rw [← Rat.num_div_den a, ← Rat.num_div_den b]
  field_simp

theorem ratDiv_eq (a b : Rat) : ratDiv a b = a / b := by
  have hda : ((a.den : Rat)) ≠ 0 := by exact_mod_cast a.den_nz
  rw [ratDiv, Rat.divInt_eq_div]
  push_cast
  rcases eq_or_ne b 0 with hb | hb
  · subst hb; simp
  · have hnb : ((b.num : Rat)) ≠ 0 := by
      exact_mod_cast Rat.num_ne_zero.mpr hb
    conv_rhs => rw [← Rat.num_div_den a, ← Rat.num_div_den b]
    have hdb : ((b.den : Rat)) ≠ 0 := by exact_mod_cast b.den_nz
    field_simp

theorem ratOfInt_eq (n : Int) : Rat.ofInt n = (n : Rat) := rfl

/-- A Python runtime value as observed by the repository's code:
`None`, booleans, numbers (int and float, as exact rationals),
strings, lists, and string-keyed dictionaries. -/
inductive PyVal where
  | none : PyVal
  | bool : Bool → PyVal
  | num : Rat → PyVal
  | str : String → PyVal
  | list : List PyVal → PyVal
  | dict : List (String × PyVal) → PyVal

/-- `v is None` / `v is not None`, as a boolean. -/
def pyIsNone : PyVal → Bool
  | PyVal.none => true
  | _ => false

/-- Python truthiness (`bool(v)`): `None`, `False`, zero, and empty
strings/containers are falsy, everything else truthy. -/
def pyTruthy : PyVal → Bool
  | PyVal.none => false
  | PyVal.bool b => b
  | PyVal.num q => decide (q ≠ 0)
  | PyVal.str s => !s.data.isEmpty
  | PyVal.list l => !l.isEmpty
  | PyVal.dict d => !d.isEmpty

/-- Python's short-circuiting `a or b`: returns `a` when `a` is truthy,
otherwise `b`. -/
def pyOr (a b : PyVal) : PyVal :=
  if pyTruthy a then a else b

/-- `d.get(k)` on a Python dict: the stored value, or `None` when absent. -/
def pyGet (d : List (String × PyVal)) (k : String) : PyVal :=
  match d.find? (fun p => p.1 == k) with
  | Option.some p => p.2
  | Option.none => PyVal.none

/-- `k in d` on a Python dict: key membership (not value truthiness). -/
def pyHasKey (d : List (String × PyVal)) (k : String) : Bool :=
  (d.find? (fun p => p.1 == k)).isSome

/-- First occurrence of `sep` in `s`: `some (pre, post)` with
`s = pre ++ sep ++ post` and the occurrence leftmost, else `none`.
This is the primitive behind Python's `sep in s` and `s.split(sep)`
(for non-empty `sep`). -/
def splitOnce (sep : List Char) : List Char → Option (List Char × List Char)
  | [] => Option.none
  | c :: cs =>
    if sep.isPrefixOf (c :: cs) then
      Option.some ([], (c :: cs).drop sep.length)
    else
      (splitOnce sep cs).map (fun pr => (c :: pr.1, pr.2))

/-- Fuelled version of Python's `s.split(sep)` (all occurrences,
left to right, non-overlapping). -/
def pySplitF (sep : List Char) : Nat → List Char → List (List Char)
  | 0, s => [s]
  | Nat.succ n, s =>
    match splitOnce sep s with
    | Option.none => [s]
    | Option.some pr => pr.1 :: pySplitF sep n pr.2

/-- Python's `s.split(sep)` for a non-empty separator. -/
def pySplit (sep s : List Char) : List (List Char) :=
  pySplitF sep (s.length + 1) s

/-- Python's `needle in hay` on strings: substring containment. -/
def pyInStr (needle hay : String) : Bool :=
  (splitOnce needle.data hay.data).isSome

/-- Joining a list of segments with a separator; inverse of `pySplit`. -/
def joinWith (sep : List Char) : List (List Char) → List Char
  | [] => []
  | [x] => x
  | x :: y :: rest => x ++ sep ++ joinWith sep (y :: rest)

/-- Python's `str.strip()` whitespace trimming, on character lists. -/
def trimChars (l : List Char) : List Char :=
  ((l.dropWhile Char.isWhitespace).reverse.dropWhile Char.isWhitespace).reverse

/-- All characters are decimal digits and the list is non-empty. -/
def isDigits (l : List Char) : Bool :=
  !l.isEmpty && l.all (fun c => c.isDigit)

/-- Numeric value of a list of decimal digits (0 for the empty list). -/
def digitsToNat (l : List Char) : Nat :=
  l.foldl (fun a c => a * 10 + (c.toNat - 48)) 0

/-- Python's `int(s)` on a string: optional surrounding whitespace,
optional sign, then decimal digits; `none` models a raised `ValueError`.
(Digit-group underscores are not modelled.) -/
def pyIntParse? (s : String) : Option Int :=
  match trimChars s.data with
  | '+' :: rest => if isDigits rest then Option.some (Int.ofNat (digitsToNat rest)) else Option.none
  | '-' :: rest => if isDigits rest then Option.some (-(Int.ofNat (digitsToNat rest))) else Option.none
  | t => if isDigits t then Option.some (Int.ofNat (digitsToNat t)) else Option.none

/-- Power of ten as a natural number. -/
def pow10 (n : Nat) : Nat := 10 ^ n

/-- Mantissa of a Python float literal: `digits`, `digits.`, `.digits`
or `digits.digits`, as an exact rational. -/
def parseMantissa? (l : List Char) : Option Rat :=
  match pySplit ['.'] l with
  | [a] => if isDigits a then Option.some (Rat.ofInt (Int.ofNat (digitsToNat a))) else Option.none
  | [a, b] =>
    if (a.isEmpty || isDigits a) && (b.isEmpty || isDigits b) && !(a.isEmpty && b.isEmpty) then
      Option.some (mkRat (Int.ofNat (digitsToNat a * pow10 b.length + digitsToNat b)) (pow10 b.length))
    else
      Option.none
  | _ => Option.none

/-- Signed decimal exponent of a float literal. -/
def parseExp? (l : List Char) : Option Int :=
  match l with
  | '+' :: rest => if isDigits rest then Option.some (Int.ofNat (digitsToNat rest)) else Option.none
  | '-' :: rest => if isDigits rest then Option.some (-(Int.ofNat (digitsToNat rest))) else Option.none
  | t => if isDigits t then Option.some (Int.ofNat (digitsToNat t)) else Option.none

/-- `10 ^ e` as a rational, for a possibly negative exponent. -/
def ratPow10 (e : Int) : Rat :=
  if 0 ≤ e then Rat.ofInt (Int.ofNat (pow10 e.toNat)) else mkRat 1 (pow10 (-e).toNat)

/-- Unsigned part of Python's `float(s)`: mantissa with optional
`e`/`E` exponent. -/
def parseUnsignedFloat? (l : List Char) : Option Rat :=
  match pySplit ['e'] (l.map Char.toLower) with
  | [m] => parseMantissa? m
  | [m, ex] =>
    match parseMantissa? m, parseExp? ex with
    | Option.some q, Option.some e => Option.some (ratMul q (ratPow10 e))
    | _, _ => Option.none
  | _ => Option.none

/-- Python's `float(s)` on a string for finite decimal literals
(optional whitespace, sign, mantissa, exponent); `none` models a raised
`ValueError`.  The non-finite literals `inf`/`nan` fall outside the
rational model and also map to `none`. -/
def pyFloatParse? (s : String) : Option Rat :=
  match trimChars s.data with
  | '+' :: rest => parseUnsignedFloat? rest
  | '-' :: rest => (parseUnsignedFloat? rest).map ratNeg
  | t => parseUnsignedFloat? t

/-- Python's `float(v)` on an arbitrary value; `none` models a raised
`TypeError`/`ValueError`. -/
def pyFloat? : PyVal → Option Rat
  | PyVal.num q => Option.some q
  | PyVal.bool b => Option.some (if b then 1 else 0)
  | PyVal.str s => pyFloatParse? s
  | _ => Option.none

/-- Round an exact rational to the nearest integer, ties to even
(CPython's rounding of exact halves). -/
def roundHalfEven (q : Rat) : Int :=
  let f : Int := ratFloor q
  let frac : Rat := ratAdd q (ratNeg (Rat.ofInt f))
  if ratLtB frac (mkRat 1 2) then f
  else if ratLtB (mkRat 1 2) frac then f + 1
  else if f % 2 = 0 then f else f + 1

/-- Python's `round(x, 1)` on the exact rational model. -/
def pyRound1 (q : Rat) : Rat :=
  ratDiv (Rat.ofInt (roundHalfEven (ratMul q 10))) 10

/-- Truncation toward zero, as in NumPy's float-to-int cast. -/
def ratTruncInt (q : Rat) : Int :=
  if 0 ≤ q.num then ratFloor q else -(ratFloor (ratNeg q))

/-- Rendering a value as Python's `str(v)`, to the extent the repository
observes it: strings render as themselves; numbers, `None` and booleans
use their Python spelling; container rendering is abbreviated, keeping the
one observable property the code depends on (`str` of a non-empty dict
contains a colon, `str` of a list does not). -/
def pyStrOf : PyVal → String
  | PyVal.none => "None"
  | PyVal.bool true => "True"
  | PyVal.bool false => "False"
  | PyVal.num q => if q.den == 1 then toString q.num else toString q.num ++ "/" ++ toString q.den
  | PyVal.str s => s
  | PyVal.list _ => "[...]"
  | PyVal.dict d => if d.isEmpty then "\x7b\x7d" else "\x7b...: ...\x7d"

example : pySplit [':'] "36:24".data = [['3', '6'], ['2', '4']] := by decide
example : pyIntParse? " 36 " = Option.some 36 := by decide
example : pyFloatParse? "25.5" = Option.some (mkRat 51 2) := by decide
example : pyFloatParse? "1e3" = Option.some (mkRat 1000 1) := by decide
example : pyFloatParse? "abc" = Option.none := by decide
example : pyRound1 (ratAdd 36 (ratDiv 24 60)) = mkRat 182 5 := by decide
example : pyRound1 (mkRat 765 20) = mkRat 382 10 := by decide
example : pyInStr "NBA" "NBA REGULAR" = true := by decide
example : pyInStr "NBA" "NHL" = false := by decide
example : pyInStr "NBA" "NBA" = true := by decide

/-! ## `src/scrape_prizepicks.py`: the props scraper -/

/-- A Python dictionary value, e.g. a projection or a prop record. -/
abbrev PyDict := List (String × PyVal)

/-- `projection.get('player_name') or projection.get('name') or
projection.get('player')` from `_extract_prop_data`. -/
def resolvedPlayer (projection : PyDict) : PyVal :=
  pyOr (pyGet projection "player_name") (pyOr (pyGet projection "name") (pyGet projection "player"))

/-- `projection.get('stat_type') or projection.get('category') or
projection.get('market')` from `_extract_prop_data`. -/
def resolvedStat (projection : PyDict) : PyVal :=
  pyOr (pyGet projection "stat_type") (pyOr (pyGet projection "category") (pyGet projection "market"))

/-- `projection.get('line') or projection.get('value') or
projection.get('projection')` from `_extract_prop_data`. -/
def resolvedLine (projection : PyDict) : PyVal :=
  pyOr (pyGet projection "line") (pyOr (pyGet projection "value") (pyGet projection "projection"))

/-- `projection.get('sport') or projection.get('league')` from
`_extract_prop_data`. -/
def resolvedSport (projection : PyDict) : PyVal :=
  pyOr (pyGet projection "sport") (pyGet projection "league")

/-- One iteration body of `_extract_matchup`'s field loop: a string field
value is returned as is; a dict field value with truthy home and away parts
is formatted as `"{away} @ {home}"`; anything else falls through. -/
def matchupFromField (v : PyVal) : Option PyVal :=
  match v with
  | PyVal.str s => Option.some (PyVal.str s)
  | PyVal.dict m =>
    let home := pyOr (pyGet m "home") (pyGet m "home_team")
    let away := pyOr (pyGet m "away") (pyGet m "away_team")
    if pyTruthy home && pyTruthy away then
      Option.some (PyVal.str (pyStrOf away ++ " @ " ++ pyStrOf home))
    else Option.none
  | _ => Option.none

/-- The team/opponent fallback at the end of `_extract_matchup`. -/
def matchupTeamFallback (projection : PyDict) : PyVal :=
  let team := pyOr (pyGet projection "team") (pyGet projection "player_team")
  let opp := pyOr (pyGet projection "opponent") (pyGet projection "opposing_team")
  if pyTruthy team && pyTruthy opp then
    PyVal.str (pyStrOf team ++ " vs " ++ pyStrOf opp)
  else if pyTruthy team then team
  else PyVal.str "Unknown"

/-- The field loop of `_extract_matchup` over the candidate field names. -/
def matchupLoop (projection : PyDict) : List String → PyVal
  | [] => matchupTeamFallback projection
  | f :: rest =>
    if pyHasKey projection f then
      match matchupFromField (pyGet projection f) with
      | Option.some r => r
      | Option.none => matchupLoop projection rest
    else matchupLoop projection rest

/-- `PrizePicksScraper._extract_matchup`. -/
def extract_matchup (projection : PyDict) : PyVal :=
  matchupLoop projection ["matchup", "game", "opponent", "teams", "fixture"]

/-- The sport test `'NBA' in sport.upper()`; a truthy non-string sport has
no `.upper()`, the resulting `AttributeError` is caught by the surrounding
handler and leads to a discard, modelled here as `false`. -/
def sportNBA : PyVal → Bool
  | PyVal.str s => pyInStr "NBA" (String.mk (s.data.map Char.toUpper))
  | _ => false

/-- The final presence check and record construction of
`_extract_prop_data`: `if player_name and stat_type and line_value is not
None: return {...}`; the `float(line_value)` in the record body may raise,
which the surrounding handler turns into a discard. -/
def buildRecord (today : String) (player_name stat_type line_value matchup : PyVal) : Option PyDict :=
  if pyTruthy player_name && pyTruthy stat_type && !(pyIsNone line_value) then
    match pyFloat? line_value with
    | Option.some q =>
      Option.some [("player", player_name), ("stat_type", stat_type),
        ("line_value", PyVal.num q), ("matchup", matchup), ("date", PyVal.str today)]
    | Option.none => Option.none
  else Option.none

/-- `PrizePicksScraper._extract_prop_data` (with `date.today().isoformat()`
passed in as `today`). -/
def extract_prop_data (today : String) (projection : PyDict) : Option PyDict :=
  let player_name := resolvedPlayer projection
  let stat_type := resolvedStat projection
  let line_value := resolvedLine projection
  let matchup := extract_matchup projection
  let sport := resolvedSport projection
  if pyTruthy sport && !sportNBA sport then Option.none
  else buildRecord today player_name stat_type line_value matchup

/-- Python iteration over a value, as used by `for projection in
projections`: lists iterate their elements, dicts their keys, strings their
characters; iterating anything else raises `TypeError`. -/
def toIterable : PyVal → Except Unit (List PyVal)
  | PyVal.list l => Except.ok l
  | PyVal.dict d => Except.ok (d.map (fun p => PyVal.str p.1))
  | PyVal.str s => Except.ok (s.data.map (fun c => PyVal.str (String.mk [c])))
  | _ => Except.error ()

/-- The shape sniffing in `_parse_api_response`: a dict is unwrapped through
the first present key among `data`, `projections`, `results` (else wrapped
as a one-element list); a list is used as is; any other body leaves the
projection list empty. -/
def selectProjections : PyVal → Except Unit (List PyVal)
  | PyVal.dict d =>
    if pyHasKey d "data" then toIterable (pyGet d "data")
    else if pyHasKey d "projections" then toIterable (pyGet d "projections")
    else if pyHasKey d "results" then toIterable (pyGet d "results")
    else Except.ok [PyVal.dict d]
  | PyVal.list l => Except.ok l
  | _ => Except.ok []

/-- `PrizePicksScraper._parse_api_response`: non-dict entries are skipped by
the `isinstance` check, extraction failures are skipped, and an iteration
`TypeError` is caught by the handler, which returns the (empty) list
collected so far. -/
def parse_api_response (today : String) (data : PyVal) : List PyDict :=
  match selectProjections data with
  | Except.error _ => []
  | Except.ok l =>
    l.filterMap (fun p =>
      match p with
      | PyVal.dict d => extract_prop_data today d
      | _ => Option.none)

/-- Observable outcome of one `session.get` on an API endpoint: a raised
`requests` exception, or a response with a status code and a body that
either parses as JSON or raises `JSONDecodeError` (carrying the raw text). -/
inductive ApiResp where
  | raised : ApiResp
  | resp : Nat → Except String PyVal → ApiResp

/-- The endpoint loop of `get_nba_props`: request exceptions continue with
the next endpoint, as do non-200 responses; a 200 response with JSON body is
parsed and breaks the loop; a 200 response with a non-JSON body is handed to
the HTML scraper (`_scrape_html`, modelled by `htmlParse`) and breaks. -/
def tryEndpoints (htmlParse : String → List PyDict) (today : String) : List ApiResp → List PyDict
  | [] => []
  | ApiResp.raised :: rest => tryEndpoints htmlParse today rest
  | ApiResp.resp status body :: rest =>
    if status == 200 then
      match body with
      | Except.ok data => parse_api_response today data
      | Except.error txt => htmlParse txt
    else tryEndpoints htmlParse today rest

/-- `PrizePicksScraper._scrape_main_page`: fetch the main page (`mainPage`
is `none` when the transport raises, which the local handler turns into an
empty result) and run the HTML scraper on it. -/
def scrape_main_page (htmlParse : String → List PyDict) (mainPage : Option String) : List PyDict :=
  match mainPage with
  | Option.some txt => htmlParse txt
  | Option.none => []

/-- `PrizePicksScraper._get_mock_data`: the fixed five-record mock dataset. -/
def mock_props (today : String) : List PyDict :=
  [ [("player", PyVal.str "LeBron James"), ("stat_type", PyVal.str "Points"),
     ("line_value", PyVal.num (mkRat 51 2)), ("matchup", PyVal.str "LAL @ GSW"),
     ("date", PyVal.str today)],
    [("player", PyVal.str "Stephen Curry"), ("stat_type", PyVal.str "Assists"),
     ("line_value", PyVal.num (mkRat 13 2)), ("matchup", PyVal.str "GSW vs LAL"),
     ("date", PyVal.str today)],
    [("player", PyVal.str "Anthony Davis"), ("stat_type", PyVal.str "Rebounds"),
     ("line_value", PyVal.num (mkRat 23 2)), ("matchup", PyVal.str "LAL @ GSW"),
     ("date", PyVal.str today)],
    [("player", PyVal.str "Draymond Green"), ("stat_type", PyVal.str "Assists"),
     ("line_value", PyVal.num (mkRat 15 2)), ("matchup", PyVal.str "GSW vs LAL"),
     ("date", PyVal.str today)],
    [("player", PyVal.str "Russell Westbrook"), ("stat_type", PyVal.str "Points"),
     ("line_value", PyVal.num (mkRat 37 2)), ("matchup", PyVal.str "LAL @ GSW"),
     ("date", PyVal.str today)] ]

/-- The live (non-mock) part of `get_nba_props`: the endpoint loop, then the
main-page HTML fallback when it produced nothing. -/
def liveProps (htmlParse : String → List PyDict) (today : String)
    (endpoints : List ApiResp) (mainPage : Option String) : List PyDict :=
  let props := tryEndpoints htmlParse today endpoints
  if props.isEmpty then scrape_main_page htmlParse mainPage else props

/-- `PrizePicksScraper.get_nba_props`: mock mode returns the mock data
immediately; otherwise the live chain runs with every exception caught, and
an empty outcome falls back to the mock data. -/
def get_nba_props (use_mock : Bool) (htmlParse : String → List PyDict) (today : String)
    (endpoints : List ApiResp) (mainPage : Option String) : List PyDict :=
  if use_mock then mock_props today
  else
    let props := liveProps htmlParse today endpoints mainPage
    if props.isEmpty then mock_props today else props

/-- The fixed CSV column order in `save_to_csv`. -/
def csvColumns : List String := ["player", "stat_type", "line_value", "matchup", "date"]

/-- A written CSV file, modelled declaratively: its path, its header, its
data rows, and the directory `os.makedirs(..., exist_ok=True)` ensured. -/
structure CsvFile where
  path : String
  header : List String
  rows : List (List PyVal)
  ensuredDir : String

/-- `os.path.join` for a relative second component. -/
def ospathJoin (a b : String) : String :=
  if a.data.isEmpty then b
  else if a.data.getLast? == Option.some '/' then a ++ b
  else a ++ "/" ++ b

/-- `PrizePicksScraper.save_to_csv` (with `date.today().isoformat()` passed
in as `today`): an empty props list writes nothing (the function returns an
empty path, modelled as `none`); otherwise the records become a DataFrame,
are reindexed to the fixed column order (a missing key yields NaN, modelled
as `PyVal.none`) and written under the date-stamped file name. -/
def save_to_csv (props : List PyDict) (output_dir today : String) : Option CsvFile :=
  if props.isEmpty then Option.none
  else Option.some
    { path := ospathJoin output_dir ("nba_props_" ++ today ++ ".csv"),
      header := csvColumns,
      rows := props.map (fun p => csvColumns.map (fun c => pyGet p c)),
      ensuredDir := output_dir }

example : (extract_prop_data "d" [("player_name", PyVal.str "A"), ("stat_type", PyVal.str "Points"), ("line", PyVal.num (mkRat 51 2))]).isSome = true := by decide
example : (extract_prop_data "d" [("player_name", PyVal.str "A"), ("stat_type", PyVal.str "Points"), ("line", PyVal.num 0)]).isSome = false := by decide
example : (extract_prop_data "d" [("player_name", PyVal.str "A"), ("stat_type", PyVal.str "Points"), ("line", PyVal.num 1), ("sport", PyVal.str "NHL")]).isSome = false := by decide
example : (extract_prop_data "d" [("player_name", PyVal.str "A"), ("stat_type", PyVal.str "Points"), ("line", PyVal.num 1), ("sport", PyVal.str "NBA Regular")]).isSome = true := by decide
example : (get_nba_props false (fun _ => []) "d" [ApiResp.raised, ApiResp.raised, ApiResp.raised] Option.none).length = 5 := by decide

/-! ## `src/fetch_nba_stats.py`: the stats fetcher -/

/-- `_parse_minutes` on a string argument.  `':' in s` selects the colon
branch, where the first two `:`-separated fields go through `int(...)`
(a failure is caught as `ValueError` and yields `0.0`); otherwise the
string goes through `float(...)` (a failure is caught likewise). -/
def parse_minutes (s : String) : Rat :=
  if s.data.contains ':' then
    match pySplit [':'] s.data with
    | p0 :: p1 :: _ =>
      match pyIntParse? (String.mk p0), pyIntParse? (String.mk p1) with
      | Option.some m, Option.some sec =>
        pyRound1 (ratAdd (Rat.ofInt m) (ratDiv (Rat.ofInt sec) 60))
      | _, _ => 0
    | _ => 0
  else
    match pyFloatParse? s with
    | Option.some q => q
    | Option.none => 0

/-- `_parse_minutes` on an arbitrary DataFrame cell.  The code first takes
`str(minutes_str)`; in the no-colon branch, `float(...)` of a non-numeric
non-string raises `TypeError`, which the local `except (ValueError,
IndexError)` does NOT catch, so it propagates (`Except.error`). -/
def parse_minutes_cell (v : PyVal) : Except Unit Rat :=
  match v with
  | PyVal.str s => Except.ok (parse_minutes s)
  | _ =>
    if (pyStrOf v).data.contains ':' then Except.ok (parse_minutes (pyStrOf v))
    else
      match pyFloat? v with
      | Option.some q => Except.ok q
      | Option.none => Except.error ()

/-- `_extract_opponent` on character lists: `' vs. ' in matchup` first, then
`' @ '`, each returning `matchup.split(sep)[1]`; with neither separator the
input comes back unchanged.  (The `[1]` access cannot fail when the
separator occurs; the dead fallback mirrors the `except` handler, which
would also return the input.) -/
def extract_opponent_l (m : List Char) : List Char :=
  if (splitOnce " vs. ".data m).isSome then
    match pySplit " vs. ".data m with
    | _ :: b :: _ => b
    | _ => m
  else if (splitOnce " @ ".data m).isSome then
    match pySplit " @ ".data m with
    | _ :: b :: _ => b
    | _ => m
  else m

/-- `_extract_opponent` on strings. -/
def extract_opponent (m : String) : String :=
  String.mk (extract_opponent_l m.data)

/-- `_extract_opponent` as applied to an arbitrary `MATCHUP` cell: for a
non-string cell, `' vs. ' in matchup` raises `TypeError`, which the local
`except Exception` handler catches, returning the cell unchanged. -/
def extract_opponent_cell (v : PyVal) : PyVal :=
  match v with
  | PyVal.str s => PyVal.str (extract_opponent s)
  | _ => v

/-- A pandas DataFrame, modelled as its ordered columns (label and cells). -/
structure Frame where
  cols : List (String × List PyVal)

/-- Column lookup, `df['NAME']` / membership `'NAME' in df.columns`. -/
def Frame.getCol (df : Frame) (name : String) : Option (List PyVal) :=
  (df.cols.find? (fun p => p.1 == name)).map (fun p => p.2)

/-- Number of rows (length of the index). -/
def Frame.nrows (df : Frame) : Nat :=
  match df.cols with
  | [] => 0
  | c :: _ => c.2.length

/-- `df.empty`: an axis of length zero. -/
def Frame.isEmpty (df : Frame) : Bool :=
  df.cols.isEmpty || df.nrows == 0

/-- The normalized output table of `get_player_game_logs`: the fixed column
labels together with the data rows (one list of cells per row, in column
order). -/
structure OutFrame where
  cols : List String
  rows : List (List PyVal)

/-- The canonical game-log column order. -/
def gameLogColumns : List String :=
  ["date", "opponent", "points", "assists", "rebounds", "minutes"]

/-- Reindexing a column assigned to an already-indexed DataFrame: pandas
aligns the assigned series to the existing index (of length `n`). -/
def conform (n : Nat) (l : List PyVal) : List PyVal :=
  l.take n ++ List.replicate (n - l.length) PyVal.none

/-- `np`-style `astype(int)` of one cell: floats truncate toward zero,
booleans map to 0/1, strings go through `int(...)`; `None` and containers
raise. -/
def pyAstypeInt? : PyVal → Option Int
  | PyVal.num q => Option.some (ratTruncInt q)
  | PyVal.bool b => Option.some (if b then 1 else 0)
  | PyVal.str s => pyIntParse? s
  | _ => Option.none

/-- Mapping a fallible conversion over a column; any cell failure is the
series-level exception. -/
def mapCellsO (f : PyVal → Option PyVal) (l : List PyVal) : Except Unit (List PyVal) :=
  match l.mapM f with
  | Option.some r => Except.ok r
  | Option.none => Except.error ()

/-- The `date` column: with `GAME_DATE` present, each cell goes through
`pd.to_datetime(...).strftime('%Y-%m-%d')` (the external parser `parseD`;
any unparseable cell raises).  With `GAME_DATE` absent, the scalar today
string is assigned to the still-empty output frame, which in pandas
produces a zero-length column. -/
def dateColE (parseD : PyVal → Option String) (df : Frame) : Except Unit (List PyVal) :=
  match df.getCol "GAME_DATE" with
  | Option.some vs => mapCellsO (fun v => (parseD v).map PyVal.str) vs
  | Option.none => Except.ok []

/-- The `opponent` column: `df['MATCHUP'].apply(_extract_opponent)` when
present (total, every exception is caught inside `_extract_opponent`), else
the scalar `'Unknown'` broadcast over the index. -/
def oppCol (df : Frame) (n : Nat) : List PyVal :=
  match df.getCol "MATCHUP" with
  | Option.some vs => conform n (vs.map extract_opponent_cell)
  | Option.none => List.replicate n (PyVal.str "Unknown")

/-- A stats column: `df.get(NAME, 0).astype(int)`.  With the column present
the cells are cast (a cell failure raises); with it absent, `df.get`
returns the scalar int `0`, whose missing `.astype` raises
`AttributeError`. -/
def intColE (df : Frame) (name : String) (n : Nat) : Except Unit (List PyVal) :=
  match df.getCol name with
  | Option.some vs =>
    (mapCellsO (fun v => (pyAstypeInt? v).map (fun i => PyVal.num (Rat.ofInt i))) vs).map (conform n)
  | Option.none => Except.error ()

/-- The `minutes` column: `df['MIN'].apply(_parse_minutes)` when present
(a `TypeError` cell propagates), else the scalar `0.0` broadcast. -/
def minColE (df : Frame) (n : Nat) : Except Unit (List PyVal) :=
  match df.getCol "MIN" with
  | Option.some vs =>
    (vs.mapM parse_minutes_cell).map (fun l => conform n (l.map PyVal.num))
  | Option.none => Except.ok (List.replicate n (PyVal.num 0))

/-- Row `i` of the output, in canonical column order. -/
def buildRows (dates opps pts asts rebs mins : List PyVal) (n : Nat) : List (List PyVal) :=
  (List.range n).map (fun i =>
    [dates.getD i PyVal.none, opps.getD i PyVal.none, pts.getD i PyVal.none,
     asts.getD i PyVal.none, rebs.getD i PyVal.none, mins.getD i PyVal.none])

/-- The sort key of `sort_values('date', ...)`: the date cell is a
`YYYY-MM-DD` string by construction and compares as a string. -/
def dateKey (r : List PyVal) : String :=
  match r.head? with
  | Option.some (PyVal.str s) => s
  | _ => ""

/-- Insertion into a descending-by-key list. -/
def insertByKeyDesc (key : List PyVal → String) (x : List PyVal) : List (List PyVal) → List (List PyVal)
  | [] => [x]
  | y :: ys => if key y ≤ key x then x :: y :: ys else y :: insertByKeyDesc key x ys

/-- `sort_values(..., ascending=False)`: sort rows descending by key. -/
def sortByKeyDesc (key : List PyVal → String) : List (List PyVal) → List (List PyVal)
  | [] => []
  | x :: xs => insertByKeyDesc key x (sortByKeyDesc key xs)

/-- The processing block of `get_player_game_logs` (lines building
`output_df` up to the sort), with each step's possible exception made
explicit; the caller catches any error and substitutes the empty frame. -/
def processGameLogsE (parseD : PyVal → Option String) (_today : String) (df : Frame) :
    Except Unit OutFrame :=
  match dateColE parseD df with
  | Except.error e => Except.error e
  | Except.ok dates =>
    let n := dates.length
    let opps := oppCol df n
    match intColE df "PTS" n with
    | Except.error e => Except.error e
    | Except.ok pts =>
      match intColE df "AST" n with
      | Except.error e => Except.error e
      | Except.ok asts =>
        match intColE df "REB" n with
        | Except.error e => Except.error e
        | Except.ok rebs =>
          match minColE df n with
          | Except.error e => Except.error e
          | Except.ok mins =>
            Except.ok
              { cols := gameLogColumns,
                rows := sortByKeyDesc dateKey (buildRows dates opps pts asts rebs mins n) }

/-- The processing block with its surrounding `try/except`: any processing
exception yields the empty frame with the canonical columns. -/
def processGameLogs (parseD : PyVal → Option String) (today : String) (df : Frame) : OutFrame :=
  match processGameLogsE parseD today df with
  | Except.ok f => f
  | Except.error _ => { cols := gameLogColumns, rows := [] }

/-- An entry of the `nba_api` static player directory. -/
structure Player where
  id : Int
  full_name : String

/-- `find_player_by_name`: the external directory lookup
(`players.find_players_by_full_name`, modelled by `lookup`; `Option.none`
models a raised exception, which the local handler catches) followed by
first-match selection; an empty match list gives `None`. -/
def find_player_by_name (lookup : String → Option (List Player)) (player_name : String) :
    Option Player :=
  match lookup player_name with
  | Option.some l => l.head?
  | Option.none => Option.none

/-- `_get_mock_game_logs` as the DataFrame `pd.DataFrame(mock_data)`. -/
def mock_game_logs_frame : Frame :=
  { cols :=
    [ ("GAME_DATE", [PyVal.str "2024-01-15", PyVal.str "2024-01-12", PyVal.str "2024-01-10",
                     PyVal.str "2024-01-08", PyVal.str "2024-01-05"]),
      ("MATCHUP", [PyVal.str "LAL vs. GSW", PyVal.str "LAL @ BOS", PyVal.str "LAL vs. MIA",
                   PyVal.str "LAL @ PHX", PyVal.str "LAL vs. DEN"]),
      ("PTS", [PyVal.num 28, PyVal.num 25, PyVal.num 32, PyVal.num 22, PyVal.num 30]),
      ("AST", [PyVal.num 7, PyVal.num 9, PyVal.num 6, PyVal.num 8, PyVal.num 5]),
      ("REB", [PyVal.num 8, PyVal.num 6, PyVal.num 11, PyVal.num 7, PyVal.num 9]),
      ("MIN", [PyVal.str "36:24", PyVal.str "38:15", PyVal.str "40:02",
               PyVal.str "35:30", PyVal.str "37:45"]) ] }

/-- `get_player_game_logs`.  `lookup` is the external player directory,
`fetch` the external game-log endpoint (`Option.none` models a raised
transport/parse error, caught and replaced by the mock data), `parseD` the
external date parser and `today` today's date string.  The one error the
function raises to its caller is the `ValueError` for an unresolved player
name (`Except.error ()`). -/
def get_player_game_logs (lookup : String → Option (List Player))
    (fetch : Int → String → Option Frame) (parseD : PyVal → Option String) (today : String)
    (player_name season : String) (use_mock : Bool) : Except Unit OutFrame :=
  if use_mock then
    Except.ok (processGameLogs parseD today mock_game_logs_frame)
  else
    match find_player_by_name lookup player_name with
    | Option.none => Except.error ()
    | Option.some p =>
      match fetch p.id season with
      | Option.none => Except.ok (processGameLogs parseD today mock_game_logs_frame)
      | Option.some df =>
        if df.isEmpty then Except.ok { cols := gameLogColumns, rows := [] }
        else Except.ok (processGameLogs parseD today df)

example : parse_minutes "36:24" = mkRat 182 5 := by decide
example : parse_minutes "38:15" = mkRat 382 10 := by decide
example : parse_minutes "1:2:3" = 1 := by decide
example : parse_minutes "abc" = 0 := by decide
example : parse_minutes "12.5" = mkRat 25 2 := by decide
example : extract_opponent "LAL vs. GSW" = "GSW" := by decide
example : extract_opponent "LAL @ BOS" = "BOS" := by decide
example : extract_opponent "LAL" = "LAL" := by decide
example : extract_opponent "A vs. B vs. C" = "B" := by decide

/-! ## Infrastructure lemmas about splitting and sorting -/

theorem nil_prefixOf (l : List Char) : List.isPrefixOf [] l = true := by
  cases l <;> rfl

theorem prefixOf_append_ext (l : List Char) : ∀ (m n : List Char),
    l.isPrefixOf m = true → l.isPrefixOf (m ++ n) = true := by
  induction l with
  | nil => intro m n _; exact nil_prefixOf (m ++ n)
  | cons a as ih =>
    intro m n h
    cases m with
    | nil => simp [List.isPrefixOf] at h
    | cons b bs =>
      simp only [List.isPrefixOf, Bool.and_eq_true] at h ⊢
      exact ⟨h.1, ih bs n h.2⟩

theorem eq_append_drop_of_prefixOf (l : List Char) : ∀ (s : List Char),
    l.isPrefixOf s = true → s = l ++ s.drop l.length := by
  induction l with
  | nil => intro s _; simp
  | cons a as ih =>
    intro s h
    cases s with
    | nil => simp [List.isPrefixOf] at h
    | cons b bs =>
      simp only [List.isPrefixOf, Bool.and_eq_true, beq_iff_eq] at h
      obtain ⟨h1, h2⟩ := h
      subst h1
      simpa using ih bs h2

theorem splitOnce_eq_append (sep : List Char) : ∀ (s pre post : List Char),
    splitOnce sep s = Option.some (pre, post) → s = pre ++ sep ++ post := by
  intro s
  induction s with
  | nil => intro pre post h; simp [splitOnce] at h
  | cons c cs ih =>
    intro pre post h
    rw [splitOnce] at h
    by_cases hp : sep.isPrefixOf (c :: cs) = true
    · rw [if_pos hp] at h
      simp only [Option.some.injEq, Prod.mk.injEq] at h
      obtain ⟨h1, h2⟩ := h
      subst h1; subst h2
      simpa using eq_append_drop_of_prefixOf sep (c :: cs) hp
    · rw [if_neg hp] at h
      cases hs : splitOnce sep cs with
      | none => rw [hs] at h; simp at h
      | some pr =>
        obtain ⟨pa, pb⟩ := pr
        rw [hs] at h
        simp only [Option.map, Option.some.injEq, Prod.mk.injEq] at h
        obtain ⟨h1, h2⟩ := h
        subst h1; subst h2
        simp [ih pa pb hs]

theorem splitOnce_post_length (sep : List Char) (hsep : sep ≠ []) :
    ∀ (s pre post : List Char), splitOnce sep s = Option.some (pre, post) →
      post.length < s.length := by
  intro s pre post h
  have he := splitOnce_eq_append sep s pre post h
  have hl : 0 < sep.length := List.length_pos.mpr hsep
  subst he
  simp [List.length_append]
  omega

theorem splitOnce_pre_none (sep : List Char) : ∀ (s pre post : List Char),
    splitOnce sep s = Option.some (pre, post) → splitOnce sep pre = Option.none := by
  intro s
  induction s with
  | nil => intro pre post h; simp [splitOnce] at h
  | cons c cs ih =>
    intro pre post h
    rw [splitOnce] at h
    by_cases hp : sep.isPrefixOf (c :: cs) = true
    · rw [if_pos hp] at h
      simp only [Option.some.injEq, Prod.mk.injEq] at h
      obtain ⟨h1, _⟩ := h
      subst h1
      rfl
    · rw [if_neg hp] at h
      cases hs : splitOnce sep cs with
      | none => rw [hs] at h; simp at h
      | some pr =>
        obtain ⟨pa, pb⟩ := pr
        rw [hs] at h
        simp only [Option.map, Option.some.injEq, Prod.mk.injEq] at h
        obtain ⟨h1, _⟩ := h
        subst h1
        rw [splitOnce]
        have hnp : ¬ sep.isPrefixOf (c :: pa) = true := by
          intro hcontra
          apply hp
          have hcs : cs = pa ++ sep ++ pb := splitOnce_eq_append sep cs pa pb hs
          have hext := prefixOf_append_ext sep (c :: pa) (sep ++ pb) hcontra
          rw [hcs]
          simpa using hext
        rw [if_neg hnp, ih pa pb hs]
        rfl

theorem pySplitF_ne_nil (sep : List Char) : ∀ (n : Nat) (s : List Char),
    pySplitF sep n s ≠ [] := by
  intro n s
  cases n with
  | zero => simp [pySplitF]
  | succ n =>
    rw [pySplitF]
    cases splitOnce sep s <;> simp

theorem joinWith_cons (sep x : List Char) (t : List (List Char)) (h : t ≠ []) :
    joinWith sep (x :: t) = x ++ sep ++ joinWith sep t := by
  cases t with
  | nil => exact absurd rfl h
  | cons y ys => rfl

theorem pySplitF_spec (sep : List Char) (hsep : sep ≠ []) :
    ∀ (n : Nat) (s : List Char), s.length < n →
      joinWith sep (pySplitF sep n s) = s ∧
      ∀ p ∈ pySplitF sep n s, splitOnce sep p = Option.none := by
  intro n
  induction n with
  | zero => intro s hs; exact absurd hs (by omega)
  | succ n ih =>
    intro s hs
    rw [pySplitF]
    cases hso : splitOnce sep s with
    | none =>
      refine ⟨rfl, ?_⟩
      intro p hp
      simp only [List.mem_singleton] at hp
      subst hp
      exact hso
    | some pr =>
      obtain ⟨pre, post⟩ := pr
      have hlen : post.length < n := by
        have := splitOnce_post_length sep hsep s pre post hso
        omega
      obtain ⟨ihj, ihp⟩ := ih post hlen
      refine ⟨?_, ?_⟩
      · rw [joinWith_cons sep pre _ (pySplitF_ne_nil sep n post), ihj]
        exact (splitOnce_eq_append sep s pre post hso).symm
      · intro p hp
        rcases List.mem_cons.mp hp with h | h
        · rw [h]
          exact splitOnce_pre_none sep s pre post hso
        · exact ihp p h

theorem pySplit_spec (sep : List Char) (hsep : sep ≠ []) (s : List Char) :
    joinWith sep (pySplit sep s) = s ∧
    ∀ p ∈ pySplit sep s, splitOnce sep p = Option.none :=
  pySplitF_spec sep hsep (s.length + 1) s (Nat.lt_succ_self _)

theorem pySplit_of_splitOnce_none (sep s : List Char) (h : splitOnce sep s = Option.none) :
    pySplit sep s = [s] := by
  rw [pySplit, pySplitF, h]

theorem mem_insertByKeyDesc (key : List PyVal → String) (x a : List PyVal) :
    ∀ (l : List (List PyVal)), a ∈ insertByKeyDesc key x l ↔ a = x ∨ a ∈ l := by
  intro l
  induction l with
  | nil => simp [insertByKeyDesc]
  | cons y ys ih =>
    rw [insertByKeyDesc]
    by_cases h : key y ≤ key x
    · simp [h]
    · simp only [if_neg h, List.mem_cons, ih]
      tauto

theorem pairwise_insertByKeyDesc (key : List PyVal → String) (x : List PyVal) :
    ∀ (l : List (List PyVal)), l.Pairwise (fun a b => key b ≤ key a) →
      (insertByKeyDesc key x l).Pairwise (fun a b => key b ≤ key a) := by
  intro l
  induction l with
  | nil => intro _; simp [insertByKeyDesc]
  | cons y ys ih =>
    intro h
    rcases List.pairwise_cons.mp h with ⟨hy, hys⟩
    rw [insertByKeyDesc]
    by_cases hle : key y ≤ key x
    · rw [if_pos hle]
      refine List.pairwise_cons.mpr ⟨?_, h⟩
      intro z hz
      rcases List.mem_cons.mp hz with rfl | hz2
      · exact hle
      · exact le_trans (hy z hz2) hle
    · rw [if_neg hle]
      refine List.pairwise_cons.mpr ⟨?_, ih hys⟩
      intro z hz
      rcases (mem_insertByKeyDesc key x z ys).mp hz with rfl | hz2
      · exact le_of_not_le hle
      · exact hy z hz2

theorem pairwise_sortByKeyDesc (key : List PyVal → String) :
    ∀ (l : List (List PyVal)), (sortByKeyDesc key l).Pairwise (fun a b => key b ≤ key a) := by
  intro l
  induction l with
  | nil => simp [sortByKeyDesc]
  | cons x xs ih =>
    rw [sortByKeyDesc]
    exact pairwise_insertByKeyDesc key x (sortByKeyDesc key xs) ih

theorem processGameLogsE_ok (parseD : PyVal → Option String) (today : String) (df : Frame)
    (f : OutFrame) (h : processGameLogsE parseD today df = Except.ok f) :
    f.cols = gameLogColumns ∧ ∃ rs, f.rows = sortByKeyDesc dateKey rs := by
  unfold processGameLogsE at h
  cases hd : dateColE parseD df with
  | error e => rw [hd] at h; exact Except.noConfusion h
  | ok dates =>
    rw [hd] at h
    simp only at h
    cases hp : intColE df "PTS" dates.length with
    | error e => rw [hp] at h; exact Except.noConfusion h
    | ok pts =>
      rw [hp] at h
      cases ha : intColE df "AST" dates.length with
      | error e => rw [ha] at h; exact Except.noConfusion h
      | ok asts =>
        rw [ha] at h
        cases hr : intColE df "REB" dates.length with
        | error e => rw [hr] at h; exact Except.noConfusion h
        | ok rebs =>
          rw [hr] at h
          cases hm : minColE df dates.length with
          | error e => rw [hm] at h; exact Except.noConfusion h
          | ok mins =>
            rw [hm] at h
            injection h with h2
            subst h2
            exact ⟨rfl, _, rfl⟩

theorem processGameLogs_cols (parseD : PyVal → Option String) (today : String) (df : Frame) :
    (processGameLogs parseD today df).cols = gameLogColumns := by
  unfold processGameLogs
  cases hp : processGameLogsE parseD today df with
  | ok f => exact (processGameLogsE_ok parseD today df f hp).1
  | error e => rfl

theorem processGameLogs_rows_sorted (parseD : PyVal → Option String) (today : String) (df : Frame) :
    (processGameLogs parseD today df).rows.Pairwise (fun r1 r2 => dateKey r2 ≤ dateKey r1) := by
  unfold processGameLogs
  cases hp : processGameLogsE parseD today df with
  | ok f =>
    obtain ⟨_, rs, hrs⟩ := processGameLogsE_ok parseD today df f hp
    rw [hrs]
    exact pairwise_sortByKeyDesc dateKey rs
  | error e => simp

/-- Boolean characterization of when `_extract_prop_data` keeps a
projection. -/
theorem extract_isSome_iff (today : String) (projection : PyDict) :
    (extract_prop_data today projection).isSome =
      (!(pyTruthy (resolvedSport projection) && !sportNBA (resolvedSport projection)) &&
       pyTruthy (resolvedPlayer projection) && pyTruthy (resolvedStat projection) &&
       !(pyIsNone (resolvedLine projection)) && (pyFloat? (resolvedLine projection)).isSome) := by
  simp only [extract_prop_data, buildRecord]
  cases hS : (pyTruthy (resolvedSport projection) && !sportNBA (resolvedSport projection)) <;>
  cases hP : pyTruthy (resolvedPlayer projection) <;>
  cases hT : pyTruthy (resolvedStat projection) <;>
  cases hN : pyIsNone (resolvedLine projection) <;>
  cases hF : pyFloat? (resolvedLine projection) <;>
  simp

/-! ## Claim theorems -/

/-- Claim C4: for every input row set (including empty row sets, row sets
missing any source column, and inputs whose processing raises an exception),
the game-log normalization in `get_player_game_logs` returns a table with
exactly the six columns date, opponent, points, assists, rebounds, minutes,
in that order. -/
theorem claim_C4_game_log_columns (parseD : PyVal → Option String) (today : String) (df : Frame) :
    (processGameLogs parseD today df).cols =
      ["date", "opponent", "points", "assists", "rebounds", "minutes"] :=
  processGameLogs_cols parseD today df

/-- Claim C9: for every input row set, the record sequence returned by
`get_player_game_logs` is sorted in descending order of the date field
(most recent first); the date field is the first column of the output and
its values compare as `YYYY-MM-DD` strings. -/
theorem claim_C9_game_logs_sorted_desc :
    ∀ (lookup : String → Option (List Player)) (fetch : Int → String → Option Frame)
      (parseD : PyVal → Option String) (today player_name season : String) (use_mock : Bool)
      (f : OutFrame),
      get_player_game_logs lookup fetch parseD today player_name season use_mock = Except.ok f →
      f.cols.head? = Option.some "date" ∧
      f.rows.Pairwise (fun r1 r2 => dateKey r2 ≤ dateKey r1) := by
  intro lookup fetch parseD today name season um f h
  have hproc : ∀ df : Frame,
      (Except.ok (processGameLogs parseD today df) : Except Unit OutFrame) = Except.ok f →
      f.cols.head? = Option.some "date" ∧
      f.rows.Pairwise (fun r1 r2 => dateKey r2 ≤ dateKey r1) := by
    intro df hdf
    injection hdf with h2
    subst h2
    constructor
    · rw [processGameLogs_cols]
      rfl
    · exact processGameLogs_rows_sorted parseD today df
  unfold get_player_game_logs at h
  split at h
  · exact hproc _ h
  · split at h
    · exact Except.noConfusion h
    · split at h
      · exact hproc _ h
      · split at h
        · injection h with h2
          subst h2
          exact ⟨rfl, List.Pairwise.nil⟩
        · exact hproc _ h

/-- Witness for C9 at a concrete input (empty fetched frame). -/
theorem claim_C9_witness :
    (OutFrame.mk gameLogColumns []).cols.head? = Option.some "date" ∧
    (OutFrame.mk gameLogColumns []).rows.Pairwise (fun r1 r2 => dateKey r2 ≤ dateKey r1) :=
  claim_C9_game_logs_sorted_desc (fun _ => Option.some [⟨2544, "LeBron James"⟩])
    (fun _ _ => Option.some ⟨[]⟩) (fun _ => Option.none) "2024-01-01"
    "LeBron James" "2023-24" false ⟨gameLogColumns, []⟩ rfl

/-- Claim C5: with `use_mock = false`, `get_player_game_logs` raises the
"player not found" `ValueError` exactly when name resolution yields no
match (an empty or failed directory lookup), and uses the first match when
several exist; with `use_mock = true` no resolution happens (the result does
not depend on the directory at all) and the error cannot be raised. -/
theorem claim_C5_player_not_found :
    ∀ (lookup : String → Option (List Player)) (fetch : Int → String → Option Frame)
      (parseD : PyVal → Option String) (today player_name season : String),
      ((get_player_game_logs lookup fetch parseD today player_name season false =
          Except.error ()) ↔
        (lookup player_name = Option.none ∨ lookup player_name = Option.some [])) ∧
      (∀ p ps, lookup player_name = Option.some (p :: ps) →
        get_player_game_logs lookup fetch parseD today player_name season false =
          get_player_game_logs (fun _ => Option.some [p]) fetch parseD today player_name season
            false) ∧
      (∀ lookup2 : String → Option (List Player),
        get_player_game_logs lookup fetch parseD today player_name season true =
          get_player_game_logs lookup2 fetch parseD today player_name season true) ∧
      (get_player_game_logs lookup fetch parseD today player_name season true ≠
        Except.error ()) := by
  intro lookup fetch parseD today name season
  refine ⟨?_, ?_, ?_, ?_⟩
  · cases hl : lookup name with
    | none => simp [get_player_game_logs, find_player_by_name, hl]
    | some l =>
      cases l with
      | nil => simp [get_player_game_logs, find_player_by_name, hl]
      | cons p ps =>
        simp only [get_player_game_logs, find_player_by_name, hl, List.head?, Bool.false_eq_true,
          if_false]
        constructor
        · intro hcontra
          split at hcontra
          · exact Except.noConfusion hcontra
          · split at hcontra
            · exact Except.noConfusion hcontra
            · exact Except.noConfusion hcontra
        · intro hr
          rcases hr with hr | hr
          · exact Option.noConfusion hr
          · rw [Option.some.injEq] at hr
            exact List.noConfusion hr
  · intro p ps hl
    simp only [get_player_game_logs, find_player_by_name, hl, List.head?]
  · intro lookup2
    rfl
  · simp [get_player_game_logs]

/-- Witness for C5 at concrete inputs: an empty directory raises the
not-found error; mock mode never does. -/
theorem claim_C5_witness :
    (get_player_game_logs (fun _ => Option.some []) (fun _ _ => Option.none)
        (fun _ => Option.none) "2024-01-01" "Nobody" "2023-24" false = Except.error ()) ∧
    (get_player_game_logs (fun _ => Option.some []) (fun _ _ => Option.none)
        (fun _ => Option.none) "2024-01-01" "Nobody" "2023-24" true ≠ Except.error ()) := by
  constructor
  · exact (claim_C5_player_not_found (fun _ => Option.some []) (fun _ _ => Option.none)
      (fun _ => Option.none) "2024-01-01" "Nobody" "2023-24").1.mpr (Or.inr rfl)
  · exact (claim_C5_player_not_found (fun _ => Option.some []) (fun _ _ => Option.none)
      (fun _ => Option.none) "2024-01-01" "Nobody" "2023-24").2.2.2

theorem ne_nil_of_isEmpty_false {α : Type} (l : List α) (h : l.isEmpty = false) : l ≠ [] := by
  cases l with
  | nil => simp [List.isEmpty] at h
  | cons a as => exact List.noConfusion

/-- Claim C7: for every execution (mock mode or not, whatever the endpoints,
the HTML pass and the main page do), `get_nba_props` returns a non-empty
list and never raises (it is a total function of the modelled effects); when
every live source yields no props, the five-record mock dataset is
returned. -/
theorem claim_C7_props_never_empty :
    ∀ (use_mock : Bool) (htmlParse : String → List PyDict) (today : String)
      (endpoints : List ApiResp) (mainPage : Option String),
      get_nba_props use_mock htmlParse today endpoints mainPage ≠ [] ∧
      (mock_props today).length = 5 ∧
      (liveProps htmlParse today endpoints mainPage = [] →
        get_nba_props false htmlParse today endpoints mainPage = mock_props today) := by
  intro um hp today eps mp
  refine ⟨?_, rfl, ?_⟩
  · unfold get_nba_props
    by_cases hm : um = true
    · rw [if_pos hm]
      simp [mock_props]
    · rw [if_neg hm]
      simp only
      by_cases hl : (liveProps hp today eps mp).isEmpty = true
      · rw [if_pos hl]
        simp [mock_props]
      · rw [if_neg hl]
        exact ne_nil_of_isEmpty_false _ (Bool.not_eq_true _ ▸ hl)
  · intro h0
    simp [get_nba_props, h0]

/-- Witness for C7 at a concrete input: three raised endpoint requests, a
failed main-page fetch and an HTML pass that finds nothing still produce the
mock dataset, a non-empty result. -/
theorem claim_C7_witness :
    get_nba_props false (fun _ => []) "2024-01-01"
        [ApiResp.raised, ApiResp.raised, ApiResp.raised] Option.none =
      mock_props "2024-01-01" ∧
    get_nba_props false (fun _ => []) "2024-01-01"
        [ApiResp.raised, ApiResp.raised, ApiResp.raised] Option.none ≠ [] := by
  have h := claim_C7_props_never_empty false (fun _ => []) "2024-01-01"
    [ApiResp.raised, ApiResp.raised, ApiResp.raised] Option.none
  exact ⟨h.2.2 rfl, h.1⟩

/-- Claim C8: for every non-empty props list and output directory (not empty,
not ending in a path separator: then `os.path.join` concatenates with `/`),
`save_to_csv` writes the CSV at `<output_dir>/nba_props_<today>.csv` with
columns player, stat_type, line_value, matchup, date in that order, one data
row per input record, ensures the directory exists, and returns that path. -/
theorem claim_C8_save_to_csv :
    ∀ (props : List PyDict) (output_dir today : String),
      props ≠ [] → output_dir.data ≠ [] → output_dir.data.getLast? ≠ Option.some '/' →
      ∃ csv, save_to_csv props output_dir today = Option.some csv ∧
        csv.path = output_dir ++ "/" ++ ("nba_props_" ++ today ++ ".csv") ∧
        csv.header = ["player", "stat_type", "line_value", "matchup", "date"] ∧
        csv.rows.length = props.length ∧
        csv.ensuredDir = output_dir := by
  intro props dir today hne hdir hsl
  have hpe : props.isEmpty = false := by
    cases props with
    | nil => exact absurd rfl hne
    | cons a l => rfl
  have hde : dir.data.isEmpty = false := by
    cases hd : dir.data with
    | nil => exact absurd hd hdir
    | cons c cs => rfl
  have hj : ospathJoin dir ("nba_props_" ++ today ++ ".csv") =
      dir ++ "/" ++ ("nba_props_" ++ today ++ ".csv") := by
    unfold ospathJoin
    rw [if_neg (by rw [hde]; exact Bool.false_ne_true)]
    rw [if_neg (by rw [beq_eq_false_iff_ne.mpr hsl]; exact Bool.false_ne_true)]
  refine ⟨⟨dir ++ "/" ++ ("nba_props_" ++ today ++ ".csv"), csvColumns,
      props.map (fun p => csvColumns.map (fun c => pyGet p c)), dir⟩, ?_, rfl, rfl, ?_, rfl⟩
  · unfold save_to_csv
    rw [if_neg (by rw [hpe]; exact Bool.false_ne_true)]
    rw [hj]
  · exact List.length_map _ _

/-- Witness for C8 at a concrete input: saving the mock props into `data`. -/
theorem claim_C8_witness :
    ∃ csv, save_to_csv (mock_props "2024-01-01") "data" "2024-01-01" = Option.some csv ∧
      csv.path = "data" ++ "/" ++ ("nba_props_" ++ "2024-01-01" ++ ".csv") ∧
      csv.header = ["player", "stat_type", "line_value", "matchup", "date"] ∧
      csv.rows.length = (mock_props "2024-01-01").length ∧
      csv.ensuredDir = "data" :=
  claim_C8_save_to_csv (mock_props "2024-01-01") "data" "2024-01-01"
    (by simp [mock_props]) (by decide) (by decide)

/-- Claim C1 (amended): prop extraction resolves the player, stat-type and
line-value fields by trying the alias lists in priority order with
first-TRUTHY-wins semantics (Python `or`: a present but falsy value such as
`0`, `0.0`, `""` or `None` falls through to the next alias), and it returns
a record exactly when the sport filter does not discard the projection, the
resolved player and stat-type are truthy, the resolved line value is not
`None`, and that value converts to `float`; the record then carries the
resolved values, the extracted matchup and today's date. -/
theorem claim_C1_extraction_first_truthy :
    ∀ (today : String) (projection : PyDict),
      (((extract_prop_data today projection).isSome = true) ↔
        ((pyTruthy (resolvedSport projection) && !sportNBA (resolvedSport projection)) = false ∧
         pyTruthy (resolvedPlayer projection) = true ∧
         pyTruthy (resolvedStat projection) = true ∧
         pyIsNone (resolvedLine projection) = false ∧
         (pyFloat? (resolvedLine projection)).isSome = true)) ∧
      (∀ q, pyFloat? (resolvedLine projection) = Option.some q →
        (extract_prop_data today projection).isSome = true →
        extract_prop_data today projection = Option.some
          [("player", resolvedPlayer projection), ("stat_type", resolvedStat projection),
           ("line_value", PyVal.num q), ("matchup", extract_matchup projection),
           ("date", PyVal.str today)]) := by
  intro today projection
  constructor
  · rw [extract_isSome_iff]
    cases hS : (pyTruthy (resolvedSport projection) && !sportNBA (resolvedSport projection)) <;>
    cases hP : pyTruthy (resolvedPlayer projection) <;>
    cases hT : pyTruthy (resolvedStat projection) <;>
    cases hN : pyIsNone (resolvedLine projection) <;>
    cases hF : (pyFloat? (resolvedLine projection)).isSome <;>
    simp
  · intro q hq hsome
    simp only [extract_prop_data, buildRecord] at hsome ⊢
    cases hS : (pyTruthy (resolvedSport projection) && !sportNBA (resolvedSport projection)) with
    | true => rw [hS] at hsome; simp at hsome
    | false =>
      rw [hS] at hsome
      rw [if_neg Bool.false_ne_true] at hsome ⊢
      cases hC : (pyTruthy (resolvedPlayer projection) && pyTruthy (resolvedStat projection) &&
          !(pyIsNone (resolvedLine projection))) with
      | true =>
        rw [hC] at hsome
        rw [if_pos rfl] at hsome ⊢
        rw [hq]
      | false =>
        rw [hC] at hsome
        rw [if_neg Bool.false_ne_true] at hsome
        simp at hsome

/-- Counterexample to C1 as stated: in the projection below all three fields
resolve to non-null values under first-non-null semantics (`player_name`,
`stat_type` and `line` are all present and none is `None`), so the claim
demands a record, but the code discards the projection: Python `or` skips
the falsy line value `0`, the resolved line is `None`, and extraction
returns no record. -/
theorem claim_C1_counterexample :
    pyIsNone (pyGet [("player_name", PyVal.str "LeBron James"),
      ("stat_type", PyVal.str "Points"), ("line", PyVal.num 0)] "player_name") = false ∧
    pyIsNone (pyGet [("player_name", PyVal.str "LeBron James"),
      ("stat_type", PyVal.str "Points"), ("line", PyVal.num 0)] "stat_type") = false ∧
    pyIsNone (pyGet [("player_name", PyVal.str "LeBron James"),
      ("stat_type", PyVal.str "Points"), ("line", PyVal.num 0)] "line") = false ∧
    extract_prop_data "2024-01-01" [("player_name", PyVal.str "LeBron James"),
      ("stat_type", PyVal.str "Points"), ("line", PyVal.num 0)] = Option.none :=
  ⟨by decide, by decide, by decide, rfl⟩

/-- Witness for the amended C1 at a concrete input: a projection that
resolves its fields through the second alias of each list. -/
theorem claim_C1_witness :
    extract_prop_data "2024-01-01" [("name", PyVal.str "LeBron James"),
        ("category", PyVal.str "Points"), ("value", PyVal.num (mkRat 51 2))] =
      Option.some
        [("player", resolvedPlayer [("name", PyVal.str "LeBron James"),
            ("category", PyVal.str "Points"), ("value", PyVal.num (mkRat 51 2))]),
         ("stat_type", resolvedStat [("name", PyVal.str "LeBron James"),
            ("category", PyVal.str "Points"), ("value", PyVal.num (mkRat 51 2))]),
         ("line_value", PyVal.num (mkRat 51 2)),
         ("matchup", extract_matchup [("name", PyVal.str "LeBron James"),
            ("category", PyVal.str "Points"), ("value", PyVal.num (mkRat 51 2))]),
         ("date", PyVal.str "2024-01-01")] :=
  (claim_C1_extraction_first_truthy "2024-01-01" [("name", PyVal.str "LeBron James"),
      ("category", PyVal.str "Points"), ("value", PyVal.num (mkRat 51 2))]).2
    (mkRat 51 2) rfl (by decide)

/-- Claim C6: for every projection whose resolved sport/league field is a
(truthy) string and whose player/stat/line fields pass the presence check,
extraction keeps the projection exactly when the uppercased sport contains
`"NBA"` as a substring.  (The empty-string sport is falsy and bypasses the
filter; that case is claim C10.) -/
theorem claim_C6_sport_filter :
    ∀ (today : String) (projection : PyDict) (s : String),
      resolvedSport projection = PyVal.str s → s ≠ "" →
      pyTruthy (resolvedPlayer projection) = true →
      pyTruthy (resolvedStat projection) = true →
      pyIsNone (resolvedLine projection) = false →
      (pyFloat? (resolvedLine projection)).isSome = true →
      ((extract_prop_data today projection).isSome = true ↔
        pyInStr "NBA" (String.mk (s.data.map Char.toUpper)) = true) := by
  intro today projection s hs hne hP hT hN hF
  rw [extract_isSome_iff, hs, hP, hT, hN, hF]
  have hd : s.data ≠ [] := by
    intro hd
    apply hne
    cases s with
    | mk data =>
      have hdd : data = [] := hd
      subst hdd
      rfl
  have ht : pyTruthy (PyVal.str s) = true := by
    simp only [pyTruthy, Bool.not_eq_true']
    cases hsd : s.data with
    | nil => exact absurd hsd hd
    | cons c cs => rfl
  rw [ht]
  simp only [sportNBA]
  cases hn : pyInStr "NBA" (String.mk (s.data.map Char.toUpper)) <;> simp

/-- Witness for C6 at concrete inputs: sport `"NBA Regular"` is kept, sport
`"NHL"` is discarded. -/
theorem claim_C6_witness :
    (extract_prop_data "2024-01-01" [("player_name", PyVal.str "LeBron James"),
      ("stat_type", PyVal.str "Points"), ("line", PyVal.num (mkRat 51 2)),
      ("sport", PyVal.str "NBA Regular")]).isSome = true ∧
    (extract_prop_data "2024-01-01" [("player_name", PyVal.str "LeBron James"),
      ("stat_type", PyVal.str "Points"), ("line", PyVal.num (mkRat 51 2)),
      ("sport", PyVal.str "NHL")]).isSome = false := by
  constructor
  · exact (claim_C6_sport_filter "2024-01-01" [("player_name", PyVal.str "LeBron James"),
      ("stat_type", PyVal.str "Points"), ("line", PyVal.num (mkRat 51 2)),
      ("sport", PyVal.str "NBA Regular")] "NBA Regular" rfl (by decide) (by decide) (by decide)
      (by decide) (by decide)).mpr (by decide)
  · have h := claim_C6_sport_filter "2024-01-01" [("player_name", PyVal.str "LeBron James"),
      ("stat_type", PyVal.str "Points"), ("line", PyVal.num (mkRat 51 2)),
      ("sport", PyVal.str "NHL")] "NHL" rfl (by decide) (by decide) (by decide)
      (by decide) (by decide)
    cases hx : (extract_prop_data "2024-01-01" [("player_name", PyVal.str "LeBron James"),
      ("stat_type", PyVal.str "Points"), ("line", PyVal.num (mkRat 51 2)),
      ("sport", PyVal.str "NHL")]).isSome with
    | false => rfl
    | true => exact absurd (h.mp hx) (by decide)

/-- Claim C10 (implicit): a projection whose `sport` and `league` fields are
both absent or falsy is NOT discarded by the NBA filter; with truthy player
and stat-type and a numeric line value, it yields a prop record. -/
theorem claim_C10_sportless_kept :
    ∀ (today : String) (projection : PyDict) (q : Rat),
      pyTruthy (pyGet projection "sport") = false →
      pyTruthy (pyGet projection "league") = false →
      pyTruthy (resolvedPlayer projection) = true →
      pyTruthy (resolvedStat projection) = true →
      resolvedLine projection = PyVal.num q →
      (extract_prop_data today projection).isSome = true := by
  intro today projection q hs hl hP hT hline
  rw [extract_isSome_iff, hP, hT, hline]
  have hsport : resolvedSport projection = pyGet projection "league" := by
    simp [resolvedSport, pyOr, hs]
  rw [hsport, hl]
  simp [pyIsNone, pyFloat?]

/-- Witness for C10 at a concrete input: a sportless projection yields a
record. -/
theorem claim_C10_witness :
    (extract_prop_data "2024-01-01" [("player", PyVal.str "LeBron James"),
      ("market", PyVal.str "Points"), ("projection", PyVal.num (mkRat 51 2))]).isSome = true :=
  claim_C10_sportless_kept "2024-01-01" [("player", PyVal.str "LeBron James"),
    ("market", PyVal.str "Points"), ("projection", PyVal.num (mkRat 51 2))] (mkRat 51 2)
    (by decide) (by decide) (by decide) (by decide) rfl

/-- Claim C2 (amended): for a matchup containing `" vs. "` (else `" @ "`),
the opponent extractor returns the SECOND FIELD of the full split on that
separator — the segment strictly between the first and the second
occurrence — not everything after the first separator (those coincide only
when the separator occurs once); with neither separator the input comes back
unchanged.  The final conjunct grounds the notion of token: the split
decomposes the input into separator-free segments whose separator-join is
the input. -/
theorem claim_C2_opponent_extractor :
    ∀ m : List Char,
      (splitOnce " vs. ".data m = Option.none → splitOnce " @ ".data m = Option.none →
        extract_opponent_l m = m) ∧
      (∀ a b rest, pySplit " vs. ".data m = a :: b :: rest → extract_opponent_l m = b) ∧
      (splitOnce " vs. ".data m = Option.none →
        ∀ a b rest, pySplit " @ ".data m = a :: b :: rest → extract_opponent_l m = b) ∧
      (∀ sep : List Char, sep ≠ [] →
        joinWith sep (pySplit sep m) = m ∧
        ∀ p ∈ pySplit sep m, splitOnce sep p = Option.none) := by
  intro m
  refine ⟨?_, ?_, ?_, ?_⟩
  · intro h1 h2
    simp [extract_opponent_l, h1, h2]
  · intro a b rest h
    cases hso : splitOnce " vs. ".data m with
    | none =>
      rw [pySplit_of_splitOnce_none _ _ hso] at h
      exact absurd h (by simp)
    | some pr =>
      unfold extract_opponent_l
      rw [hso]
      simp only [Option.isSome_some, if_pos]
      rw [h]
  · intro hvs a b rest h
    cases hso : splitOnce " @ ".data m with
    | none =>
      rw [pySplit_of_splitOnce_none _ _ hso] at h
      exact absurd h (by simp)
    | some pr =>
      unfold extract_opponent_l
      rw [hvs, hso]
      simp only [Option.isSome_none, Option.isSome_some, Bool.false_eq_true, if_false, if_pos]
      rw [h]
  · intro sep hsep
    exact pySplit_spec sep hsep m

/-- Counterexample to C2 as stated: with two separators the code returns the
middle segment, not everything after the first separator. -/
theorem claim_C2_counterexample :
    extract_opponent "LAL vs. GSW vs. BOS" = "GSW" ∧
    ("GSW" : String) ≠ "GSW vs. BOS" :=
  ⟨by decide, by decide⟩

/-- Witness for the amended C2 at a concrete input. -/
theorem claim_C2_witness :
    extract_opponent "LAL @ BOS" = "BOS" := by
  have h := (claim_C2_opponent_extractor "LAL @ BOS".data).2.2.1 (by decide)
    "LAL".data "BOS".data [] (by decide)
  unfold extract_opponent
  rw [h]

/-- Claim C3 (amended): `_parse_minutes` is total on strings and never
raises.  For a string containing a colon whose first two colon-separated
fields parse as integers M and SS, it returns `round(M + SS/60, 1)` — any
further fields are IGNORED, so `"1:2:3"` yields `1.0` rather than the `0.0`
the claim assigns to malformed input; a colon-containing string whose first
two fields do not both parse as integers yields `0.0`; a colon-free numeric
string yields its float value; any other colon-free string yields `0.0`. -/
theorem claim_C3_parse_minutes :
    ∀ s : String,
      (∀ p0 p1 rest (m sec : Int), s.data.contains ':' = true →
        pySplit [':'] s.data = p0 :: p1 :: rest →
        pyIntParse? (String.mk p0) = Option.some m →
        pyIntParse? (String.mk p1) = Option.some sec →
        parse_minutes s = pyRound1 ((m : Rat) + (sec : Rat) / 60)) ∧
      (∀ p0 p1 rest, s.data.contains ':' = true →
        pySplit [':'] s.data = p0 :: p1 :: rest →
        (pyIntParse? (String.mk p0) = Option.none ∨
          pyIntParse? (String.mk p1) = Option.none) →
        parse_minutes s = 0) ∧
      (s.data.contains ':' = false → ∀ q, pyFloatParse? s = Option.some q →
        parse_minutes s = q) ∧
      (s.data.contains ':' = false → pyFloatParse? s = Option.none → parse_minutes s = 0) := by
  intro s
  refine ⟨?_, ?_, ?_, ?_⟩
  · intro p0 p1 rest m sec hc hsplit h0 h1
    unfold parse_minutes
    rw [if_pos hc]
    simp only [hsplit]
    simp only [h0, h1]
    rw [ratAdd_eq, ratDiv_eq, ratOfInt_eq, ratOfInt_eq]
  · intro p0 p1 rest hc hsplit hbad
    unfold parse_minutes
    rw [if_pos hc]
    simp only [hsplit]
    rcases hbad with h0 | h1
    · cases hp1 : pyIntParse? (String.mk p1) <;> simp [h0, hp1]
    · cases hp0 : pyIntParse? (String.mk p0) <;> simp [hp0, h1]
  · intro hc q hq
    unfold parse_minutes
    rw [if_neg (by rw [hc]; exact Bool.false_ne_true)]
    simp only [hq]
  · intro hc hq
    unfold parse_minutes
    rw [if_neg (by rw [hc]; exact Bool.false_ne_true)]
    simp only [hq]

/-- Counterexample to C3 as stated: `"1:2:3"` is neither of the form
`"M:SS"` (it has two colons) nor a bare numeric string, so the claim assigns
it `0.0`; the code returns `round(1 + 2/60, 1) = 1.0`. -/
theorem claim_C3_counterexample :
    parse_minutes "1:2:3" = 1 ∧ (1 : Rat) ≠ 0 ∧ "1:2:3".data.count ':' = 2 :=
  ⟨by decide, by decide, by decide⟩

/-- Witness for the amended C3 at the spec's own example:
`"36:24"` yields `round(36 + 24/60, 1) = 36.4`. -/
theorem claim_C3_witness :
    parse_minutes "36:24" = pyRound1 (((36 : Int) : Rat) + ((24 : Int) : Rat) / 60) ∧
    pyRound1 (((36 : Int) : Rat) + ((24 : Int) : Rat) / 60) = mkRat 182 5 := by
  constructor
  · exact (claim_C3_parse_minutes "36:24").1 ['3', '6'] ['2', '4'] [] 36 24 (by decide)
      (by decide) (by decide) (by decide)
  · have hX : (((36 : Int) : Rat) + ((24 : Int) : Rat) / 60) = mkRat 182 5 := by
      rw [Rat.mkRat_eq_div]
      push_cast
      norm_num
    rw [hX]
    decide
